import Mathlib

/-!
# Fitness-Web backend: shallow embedding and verification

This file embeds the logic of `src/app.py` (a Flask + Firestore backend for a
fitness-content site) as pure Lean functions and proves the spec claims about
it.  The Firestore document store is modelled as explicit state (association
lists / finite maps passed and returned by each handler); JSON values relevant
to the handlers are modelled by the inductive `Value`; the flask `session`
dict is an `Option SessionData` argument.
-/

namespace FitnessWeb

/-- JSON/Firestore values as used by the handlers: strings, lists of strings,
and the `firestore.SERVER_TIMESTAMP` sentinel. -/
inductive Value where
  | s (str : String)
  | arr (xs : List String)
  | ts
deriving DecidableEq, Repr

/-- Python truthiness of a `Value` (used by `if not data[field]` checks):
empty strings and empty lists are falsy. -/
def Value.truthy : Value → Bool
  | .s str => str ≠ ""
  | .arr xs => !xs.isEmpty
  | .ts => true

/-- A stored document / parsed JSON object: a partial map from field names to
values (a field absent from the dict maps to `none`). -/
abbrev Doc := String → Option Value

/-- A JSON request body, as the association list of its fields. -/
abbrev Fields := List (String × Value)

/-- A view record as built by the tracking callers (`view_data` dicts in
`app.py`): fields `type`, `id`, `title`, `description`, `image`, `url`, and an
optional `viewedAt` (the content-read handlers build the dict without a
`viewedAt` key, modelled as `none`). -/
structure View where
  type : Value
  id : Value
  title : Value
  description : Value
  image : Value
  url : Value
  viewedAt : Option Value
deriving DecidableEq, Repr

/-- The dedup identity of a view: its `(type, id)` pair. -/
def View.key (v : View) : Value × Value := (v.type, v.id)

/-- A document of the `users` collection: `email`, `role` (both possibly
absent) and the `recent_views` array (`to_dict().get("recent_views", [])`
reads an absent array as `[]`, so we store the list directly). -/
structure UserDoc where
  email : Option String
  role : Option String
  recent_views : List View
deriving DecidableEq, Repr

/-- The `users` collection: uid ↦ document if it exists. -/
abbrev UserStore := String → Option UserDoc

/-- `recent_views` list of `uid` as the tracker reads it (empty if the user
document does not exist). -/
def viewsOf (store : UserStore) (uid : String) : List View :=
  match store uid with
  | some d => d.recent_views
  | none => []

/-- The duplicate test of line 89 of `app.py`:
`v.get("id") == view_data["id"] and v.get("type") == view_data["type"]`. -/
def sameKey (view v : View) : Bool :=
  v.id = view.id ∧ v.type = view.type

/-- Lines 89–96 of `track_user_view_internal`: drop entries sharing the new
view's `(type, id)`, insert the new view at index 0, truncate to 50. -/
def trackViewList (l : List View) (view : View) : List View :=
  let current_views := l.filter (fun v => !sameKey view v)
  let current_views := view :: current_views
  if current_views.length > 50 then current_views.take 50 else current_views

/-- `track_user_view_internal(view_data, uid)` (app.py lines 77–109): if the
user document exists, rewrite its `recent_views` via `trackViewList`;
otherwise create the document with the single view.  Returns the success
boolean and the updated store (the `except` branch returning `False` is
unreachable in the pure model). -/
def track_user_view_internal (store : UserStore) (view_data : View)
    (uid : String) : Bool × UserStore :=
  match store uid with
  | some d =>
      (true, fun u => if u = uid then
          some { d with recent_views := trackViewList d.recent_views view_data }
        else store u)
  | none =>
      (true, fun u => if u = uid then
          some ⟨none, none, [view_data]⟩
        else store u)

/-- Sequential record calls: fold `track_user_view_internal` over a list of
views (earliest first) for a fixed user. -/
def trackAll (store : UserStore) (uid : String) (vs : List View) : UserStore :=
  vs.foldl (fun st v => (track_user_view_internal st v uid).2) store

/-- The per-user list invariant of the spec: at most 50 entries and no two
entries with the same `(type, id)`. -/
def ViewsInv (l : List View) : Prop :=
  l.length ≤ 50 ∧ l.Pairwise (fun a b => a.key ≠ b.key)

instance (l : List View) : Decidable (ViewsInv l) := by
  unfold ViewsInv
  infer_instance

/-- Keep the first view of each `(type, id)` identity, in order (specification
device for the closed form of repeated `trackViewList` application). -/
def dedupKeys : List View → List View
  | [] => []
  | v :: l => v :: (dedupKeys l).filter (fun w => !sameKey v w)

/-- Index of the first view with identity `k` in `L` (for `L` the reversed
record sequence this is the recency rank: 0 = most recently recorded). -/
def keyIdx (L : List View) (k : Value × Value) : Nat :=
  L.findIdx (fun w => w.key = k)

/-- Repeated `record` at the list level: fold the list-rewrite of
`track_user_view_internal` over the views, earliest first. -/
def foldRecord (l0 : List View) (vs : List View) : List View :=
  vs.foldl trackViewList l0

section TrackerLemmas

lemma sameKey_eq_true {view v : View} : sameKey view v = true ↔ v.key = view.key := by
  simp only [sameKey, View.key, decide_eq_true_eq, Prod.ext_iff]
  tauto

lemma sameKey_eq_false {view v : View} : (!sameKey view v) = true ↔ v.key ≠ view.key := by
  simp [Bool.not_eq_true', ← sameKey_eq_true]

lemma trackViewList_eq (l : List View) (v : View) :
    trackViewList l v = (v :: l.filter (fun w => !sameKey v w)).take 50 := by
  show (if (v :: l.filter (fun w => !sameKey v w)).length > 50 then
      (v :: l.filter (fun w => !sameKey v w)).take 50
    else v :: l.filter (fun w => !sameKey v w)) = _
  by_cases h : (v :: l.filter (fun w => !sameKey v w)).length > 50
  · rw [if_pos h]
  · rw [if_neg h]
    push_neg at h
    exact (List.take_of_length_le h).symm

lemma dedupKeys_sublist (l : List View) : (dedupKeys l).Sublist l := by
  induction l with
  | nil => simp [dedupKeys]
  | cons v l ih =>
      simpa [dedupKeys] using ((List.filter_sublist _).trans ih).cons₂ v

lemma dedupKeys_pairwise (l : List View) :
    (dedupKeys l).Pairwise (fun a b => a.key ≠ b.key) := by
  induction l with
  | nil => simp [dedupKeys]
  | cons v l ih =>
      refine List.Pairwise.cons ?_ (List.Pairwise.sublist (List.filter_sublist _) ih)
      intro b hb
      have := (List.mem_filter.mp hb).2
      exact fun h => (sameKey_eq_false.mp this) (h ▸ rfl)

lemma dedupKeys_eq_self {l : List View}
    (h : l.Pairwise (fun a b => a.key ≠ b.key)) : dedupKeys l = l := by
  induction l with
  | nil => rfl
  | cons v l ih =>
      rcases List.pairwise_cons.mp h with ⟨hv, hl⟩
      have hfil : l.filter (fun w => !sameKey v w) = l := by
        refine List.filter_eq_self.mpr ?_
        intro a ha
        exact sameKey_eq_false.mpr (fun hk => hv a ha hk.symm)
      simp [dedupKeys, ih hl, hfil]

lemma countP_sameKey_le_one {l : List View}
    (h : l.Pairwise (fun a b => a.key ≠ b.key)) (v : View) :
    l.countP (fun w => sameKey v w) ≤ 1 := by
  induction l with
  | nil => simp
  | cons a l ih =>
      rcases List.pairwise_cons.mp h with ⟨ha, hl⟩
      by_cases hk : sameKey v a = true
      · have hzero : l.countP (fun w => sameKey v w) = 0 := by
          refine List.countP_eq_zero.mpr ?_
          intro b hb hsb
          exact ha b hb ((sameKey_eq_true.mp hsb).trans (sameKey_eq_true.mp hk).symm).symm
        simp [List.countP_cons, hk, hzero]
      · simpa [List.countP_cons, hk] using ih hl

lemma take_filter_take_of_countP_zero {α : Type} (P : α → Bool) :
    ∀ (l : List α) (k : Nat), (l.take k).countP (fun a => !P a) = 0 →
      ((l.take k).filter P).take k = (l.filter P).take k := by
  intro l k h
  have hall : ∀ a ∈ l.take k, P a = true := by
    intro a ha
    have := List.countP_eq_zero.mp h a ha
    simpa using this
  have hfil : (l.take k).filter P = l.take k := List.filter_eq_self.mpr hall
  rw [hfil, List.take_take, min_self]
  by_cases hlen : l.length ≤ k
  · rw [List.take_of_length_le hlen]
    have : l.filter P = l := List.filter_eq_self.mpr (by
      intro a ha; exact hall a ((List.take_of_length_le hlen).symm ▸ ha))
    rw [this]
    exact (List.take_of_length_le hlen).symm
  · push_neg at hlen
    have hsplit : l = l.take k ++ l.drop k := (List.take_append_drop k l).symm
    have : l.filter P = l.take k ++ (l.drop k).filter P := by
      conv_lhs => rw [hsplit]
      rw [List.filter_append, hfil]
    rw [this, List.take_append_of_le_length]
    · rw [List.take_take, min_self]
    · rw [List.length_take]
      omega

lemma take_filter_take_of_countP_le_one {α : Type} (P : α → Bool) :
    ∀ (l : List α) (k : Nat), (l.take (k + 1)).countP (fun a => !P a) ≤ 1 →
      ((l.take (k + 1)).filter P).take k = (l.filter P).take k := by
  intro l
  induction l with
  | nil => intro k _; simp
  | cons a tl ih =>
      intro k h
      rw [List.take_succ_cons] at h ⊢
      by_cases hPa : P a = true
      · rw [List.filter_cons_of_pos hPa, List.filter_cons_of_pos hPa]
        cases k with
        | zero => simp
        | succ m =>
            rw [List.take_succ_cons, List.take_succ_cons]
            have h' : (tl.take (m + 1)).countP (fun a => !P a) ≤ 1 := by
              have := List.countP_cons (fun a => !P a) a (tl.take (m + 1))
              omega
            rw [ih m h']
      · have hPa' : P a = false := by simpa using hPa
        rw [List.filter_cons_of_neg (by simp [hPa']), List.filter_cons_of_neg (by simp [hPa'])]
        have hzero : (tl.take k).countP (fun a => !P a) = 0 := by
          have hc := List.countP_cons (fun a => !P a) a (tl.take k)
          rw [hPa'] at hc
          simp at hc
          omega
        exact take_filter_take_of_countP_zero P tl k hzero

lemma trackViewList_take_50 {M : List View}
    (hM : M.Pairwise (fun a b => a.key ≠ b.key)) (v : View) :
    trackViewList (M.take 50) v = (v :: M.filter (fun w => !sameKey v w)).take 50 := by
  rw [trackViewList_eq]
  have h50 : (50 : Nat) = 49 + 1 := rfl
  rw [List.take_succ_cons, List.take_succ_cons]
  congr 1
  have hcount : (M.take (49 + 1)).countP (fun a => !!(sameKey v a)) ≤ 1 := by
    have hpair : (M.take 50).Pairwise (fun a b => a.key ≠ b.key) :=
      List.Pairwise.sublist (List.take_sublist _ _) hM
    have := countP_sameKey_le_one hpair v
    calc (M.take (49 + 1)).countP (fun a => !!(sameKey v a))
        = (M.take 50).countP (fun a => sameKey v a) := by
          exact List.countP_congr (fun a _ => by simp)
      _ ≤ 1 := this
  exact take_filter_take_of_countP_le_one (fun w => !sameKey v w) M 49 hcount

/-- Closed form of a sequence of record calls: the result is the first-50
prefix of the key-dedup of (reversed record sequence ++ initial list). -/
lemma foldRecord_closed_form (vs : List View) :
    ∀ l0 : List View, ViewsInv l0 →
      foldRecord l0 vs = (dedupKeys (vs.reverse ++ l0)).take 50 := by
  induction vs using List.reverseRecOn with
  | nil =>
      intro l0 h
      rw [foldRecord, List.foldl_nil, List.reverse_nil, List.nil_append,
        dedupKeys_eq_self h.2, List.take_of_length_le h.1]
  | append_singleton ws v ih =>
      intro l0 h
      rw [foldRecord, List.foldl_append, List.foldl_cons, List.foldl_nil]
      have ihw : ws.foldl trackViewList l0 = (dedupKeys (ws.reverse ++ l0)).take 50 :=
        ih l0 h
      rw [ihw, trackViewList_take_50 (dedupKeys_pairwise _) v]
      have : (ws ++ [v]).reverse ++ l0 = v :: (ws.reverse ++ l0) := by
        simp
      rw [this, dedupKeys]

lemma viewsOf_track (store : UserStore) (v : View) (uid : String) :
    viewsOf (track_user_view_internal store v uid).2 uid
      = trackViewList (viewsOf store uid) v := by
  unfold track_user_view_internal viewsOf
  cases hst : store uid with
  | some d => simp
  | none =>
      simp only [if_pos rfl]
      rw [trackViewList]
      simp

lemma viewsOf_trackAll (vs : List View) :
    ∀ (store : UserStore) (uid : String),
      viewsOf (trackAll store uid vs) uid = foldRecord (viewsOf store uid) vs := by
  induction vs with
  | nil => intro store uid; rfl
  | cons v vs ih =>
      intro store uid
      rw [trackAll, List.foldl_cons, foldRecord, List.foldl_cons]
      rw [show List.foldl (fun st v => (track_user_view_internal st v uid).2)
            (track_user_view_internal store v uid).2 vs
          = trackAll (track_user_view_internal store v uid).2 uid vs from rfl]
      rw [ih, viewsOf_track, foldRecord]

lemma keyIdx_cons (x : View) (L : List View) (k : Value × Value) :
    keyIdx (x :: L) k = if x.key = k then 0 else keyIdx L k + 1 := by
  unfold keyIdx
  rw [List.findIdx_cons]
  by_cases h : x.key = k
  · simp [h]
  · simp [h]

lemma dedupKeys_pairwise_keyIdx (L : List View) :
    (dedupKeys L).Pairwise (fun a b => keyIdx L a.key < keyIdx L b.key) := by
  induction L with
  | nil => simp [dedupKeys]
  | cons x L ih =>
      rw [dedupKeys]
      refine List.Pairwise.cons ?_ ?_
      · intro b hb
        have hbk : b.key ≠ x.key := sameKey_eq_false.mp (List.mem_filter.mp hb).2
        rw [keyIdx_cons, keyIdx_cons, if_pos rfl, if_neg (fun h => hbk h.symm)]
        omega
      · have hpw : ((dedupKeys L).filter (fun w => !sameKey x w)).Pairwise
            (fun a b => keyIdx L a.key < keyIdx L b.key) :=
          List.Pairwise.sublist (List.filter_sublist _) ih
        refine List.Pairwise.imp_of_mem ?_ hpw
        intro a b ha hb hlt
        have hak : a.key ≠ x.key := sameKey_eq_false.mp (List.mem_filter.mp ha).2
        have hbk : b.key ≠ x.key := sameKey_eq_false.mp (List.mem_filter.mp hb).2
        rw [keyIdx_cons, keyIdx_cons, if_neg (fun h => hak h.symm),
          if_neg (fun h => hbk h.symm)]
        omega

lemma keyIdx_append_left {L1 : List View} (L2 : List View) {k : Value × Value}
    (h : k ∈ L1.map View.key) : keyIdx (L1 ++ L2) k = keyIdx L1 k := by
  induction L1 with
  | nil => simp at h
  | cons x L1 ih =>
      rw [List.cons_append, keyIdx_cons, keyIdx_cons]
      by_cases hx : x.key = k
      · rw [if_pos hx, if_pos hx]
      · rw [if_neg hx, if_neg hx]
        have : k ∈ L1.map View.key := by
          rcases List.mem_map.mp h with ⟨w, hw, hwk⟩
          rcases List.mem_cons.mp hw with h1 | h2
          · exact absurd (h1 ▸ hwk) hx
          · exact List.mem_map.mpr ⟨w, h2, hwk⟩
        rw [ih this]

end TrackerLemmas

/-- A sample view record with the given type, id and title (blank auxiliary
fields), used to instantiate theorems on concrete inputs. -/
def mkView (t i ti : String) : View :=
  ⟨.s t, .s i, .s ti, .s "", .s "", .s "", none⟩

/-- C1: for every user `u` and every finite sequence of `record(v, u)` calls
executed sequentially (starting from any store whose list for `u` satisfies
the invariant, including the no-document case, where the list reads as `[]`),
the resulting `recent_views` list for `u` has no two entries with equal
`(type, id)`, has length at most 50, and is ordered by recency of the last
record call for each identity, most recent first (entries whose identity was
recorded are ranked by `keyIdx vs.reverse`, the number of records after the
last record of that identity, so rank 0 is the most recent). -/
theorem C1_record_sequence_invariant (store : UserStore) (uid : String)
    (vs : List View) (h : ViewsInv (viewsOf store uid)) :
    (viewsOf (trackAll store uid vs) uid).length ≤ 50 ∧
    (viewsOf (trackAll store uid vs) uid).Pairwise (fun a b => a.key ≠ b.key) ∧
    (viewsOf (trackAll store uid vs) uid).Pairwise (fun a b =>
      a.key ∈ vs.map View.key → b.key ∈ vs.map View.key →
        keyIdx vs.reverse a.key < keyIdx vs.reverse b.key) := by
  rw [viewsOf_trackAll, foldRecord_closed_form vs _ h]
  refine ⟨?_, ?_, ?_⟩
  · rw [List.length_take]
    omega
  · exact List.Pairwise.sublist (List.take_sublist _ _) (dedupKeys_pairwise _)
  · have base := dedupKeys_pairwise_keyIdx (vs.reverse ++ viewsOf store uid)
    have base' := List.Pairwise.sublist (List.take_sublist 50 _) base
    refine List.Pairwise.imp ?_ base'
    intro a b hlt hma hmb
    have ha' : a.key ∈ vs.reverse.map View.key := by
      rw [List.map_reverse, List.mem_reverse]; exact hma
    have hb' : b.key ∈ vs.reverse.map View.key := by
      rw [List.map_reverse, List.mem_reverse]; exact hmb
    rwa [keyIdx_append_left _ ha', keyIdx_append_left _ hb'] at hlt

/-- Witness for C1 at a concrete input: empty store, three record calls, the
first identity re-recorded last. -/
theorem C1_record_sequence_invariant_witness :
    ViewsInv (viewsOf (fun _ => none) "u") ∧
    ((viewsOf (trackAll (fun _ => none) "u"
        [mkView "blog" "a" "A", mkView "recipe" "b" "B", mkView "blog" "a" "A2"]) "u").length ≤ 50 ∧
    (viewsOf (trackAll (fun _ => none) "u"
        [mkView "blog" "a" "A", mkView "recipe" "b" "B", mkView "blog" "a" "A2"]) "u").Pairwise
      (fun a b => a.key ≠ b.key) ∧
    (viewsOf (trackAll (fun _ => none) "u"
        [mkView "blog" "a" "A", mkView "recipe" "b" "B", mkView "blog" "a" "A2"]) "u").Pairwise
      (fun a b =>
        a.key ∈ [mkView "blog" "a" "A", mkView "recipe" "b" "B",
            mkView "blog" "a" "A2"].map View.key →
        b.key ∈ [mkView "blog" "a" "A", mkView "recipe" "b" "B",
            mkView "blog" "a" "A2"].map View.key →
        keyIdx [mkView "blog" "a" "A", mkView "recipe" "b" "B",
            mkView "blog" "a" "A2"].reverse a.key <
          keyIdx [mkView "blog" "a" "A", mkView "recipe" "b" "B",
            mkView "blog" "a" "A2"].reverse b.key)) :=
  ⟨by decide, C1_record_sequence_invariant (fun _ => none) "u"
    [mkView "blog" "a" "A", mkView "recipe" "b" "B", mkView "blog" "a" "A2"] (by decide)⟩

lemma countP_sameKey_filter_not (v : View) (l : List View) :
    (l.filter (fun w => !sameKey v w)).countP (fun w => sameKey v w) = 0 := by
  refine List.countP_eq_zero.mpr ?_
  intro a ha hs
  have := (List.mem_filter.mp ha).2
  rw [hs] at this
  simp at this

/-- C5: immediately re-recording the same `(type, id)` with a different title
leaves exactly one entry with that identity, at index 0, carrying the updated
title, and the old entry is gone (removed, not duplicated). -/
theorem C5_rerecord_moves_to_front (l : List View) (v v' : View)
    (hkey : v'.key = v.key) (htitle : v'.title ≠ v.title) :
    (trackViewList (trackViewList l v) v').head? = some v' ∧
    (trackViewList (trackViewList l v) v').countP (fun w => sameKey v' w) = 1 ∧
    ((trackViewList (trackViewList l v) v').head?.map View.title) = some v'.title ∧
    v ∉ trackViewList (trackViewList l v) v' := by
  rw [trackViewList_eq (trackViewList l v) v']
  set X := (trackViewList l v).filter (fun w => !sameKey v' w) with hX
  rw [show (50 : Nat) = 49 + 1 from rfl, List.take_succ_cons]
  have hsame : sameKey v' v' = true := by simp [sameKey]
  refine ⟨rfl, ?_, rfl, ?_⟩
  · have h0 : X.countP (fun w => sameKey v' w) = 0 := countP_sameKey_filter_not v' _
    have hle := List.Sublist.countP_le (fun w => sameKey v' w) (List.take_sublist 49 X)
    simp only [List.countP_cons, hsame, if_true]
    omega
  · intro hmem
    rcases List.mem_cons.mp hmem with h1 | h2
    · exact htitle (congrArg View.title h1.symm)
    · have hvX : v ∈ X := (List.take_sublist 49 X).mem h2
      have := (List.mem_filter.mp hvX).2
      have hsk : sameKey v' v = true := sameKey_eq_true.mpr hkey.symm
      rw [hsk] at this
      simp at this

/-- Witness for C5 at a concrete input. -/
theorem C5_rerecord_moves_to_front_witness :
    (mkView "blog" "a" "A2").key = (mkView "blog" "a" "A").key ∧
    (mkView "blog" "a" "A2").title ≠ (mkView "blog" "a" "A").title ∧
    ((trackViewList (trackViewList [mkView "recipe" "b" "B"] (mkView "blog" "a" "A"))
        (mkView "blog" "a" "A2")).head? = some (mkView "blog" "a" "A2") ∧
    (trackViewList (trackViewList [mkView "recipe" "b" "B"] (mkView "blog" "a" "A"))
        (mkView "blog" "a" "A2")).countP (fun w => sameKey (mkView "blog" "a" "A2") w) = 1 ∧
    ((trackViewList (trackViewList [mkView "recipe" "b" "B"] (mkView "blog" "a" "A"))
        (mkView "blog" "a" "A2")).head?.map View.title) = some (mkView "blog" "a" "A2").title ∧
    mkView "blog" "a" "A" ∉ trackViewList
      (trackViewList [mkView "recipe" "b" "B"] (mkView "blog" "a" "A"))
      (mkView "blog" "a" "A2")) :=
  ⟨by decide, by decide,
    C5_rerecord_moves_to_front [mkView "recipe" "b" "B"] (mkView "blog" "a" "A")
      (mkView "blog" "a" "A2") (by decide) (by decide)⟩

/-! ## Session authorization gate and login (`login_required`, `session_login`) -/

/-- The flask `session` dict after a successful login: `uid`, `role`, `email`
(`role`/`email` as stored by `session_login`; `role` may be absent for a dict
not produced by login, matching `session.get("role")`). -/
structure SessionData where
  uid : String
  role : Option String
  email : Option String
deriving DecidableEq, Repr

/-- Outcome of the `login_required` wrapper: redirect to the login page
(unauthenticated), a 403 response (forbidden), or the wrapped handler's
result. -/
inductive GateResult (α : Type) where
  | unauthenticated
  | forbidden
  | allowed (a : α)
deriving DecidableEq, Repr

/-- Python truthiness of the decorator's `role` argument (`if role and ...`). -/
def truthyRole : Option String → Bool
  | none => false
  | some r => r ≠ ""

/-- `login_required(role)` (app.py lines 44–57): deny unauthenticated if
`"uid" not in session`; deny 403 if a truthy role is required and
`session.get("role") != role`; otherwise run the wrapped handler. -/
def login_required {α : Type} (role : Option String) (sess : Option SessionData)
    (body : α) : GateResult α :=
  match sess with
  | none => .unauthenticated
  | some s =>
      if truthyRole role ∧ s.role ≠ role then .forbidden
      else .allowed body

/-- C3: the gate denies `Unauthenticated` when no session exists (the body is
never run), denies `Forbidden` when a required role is set and differs from
the session's role, and otherwise allows the body to run; the role check is
exact equality, so an admin-role session is denied an operation requiring
role "user". -/
theorem C3_gate_decisions {α : Type} (role : Option String) (s : SessionData)
    (r : String) (body : α) (hr : r ≠ "") :
    login_required role none body = .unauthenticated ∧
    (s.role ≠ some r → login_required (some r) (some s) body = .forbidden) ∧
    (s.role = some r → login_required (some r) (some s) body = .allowed body) ∧
    login_required none (some s) body = .allowed body ∧
    login_required (some "user") (some { s with role := some "admin" }) body
      = .forbidden := by
  refine ⟨rfl, ?_, ?_, ?_, ?_⟩
  · intro hne
    rw [login_required, if_pos ⟨by simp [truthyRole, hr], hne⟩]
  · intro heq
    rw [login_required, if_neg]
    rintro ⟨-, hne⟩
    exact hne heq
  · rw [login_required, if_neg]
    rintro ⟨htr, -⟩
    simp [truthyRole] at htr
  · rw [login_required, if_pos ⟨by simp [truthyRole], by simp⟩]

/-- Witness for C3 at a concrete input. -/
theorem C3_gate_decisions_witness :
    ("admin" : String) ≠ "" ∧
    (login_required (some "admin") none (0 : Nat) = .unauthenticated ∧
    ((⟨"u1", some "user", none⟩ : SessionData).role ≠ some "admin" →
      login_required (some "admin") (some ⟨"u1", some "user", none⟩) (0 : Nat) = .forbidden) ∧
    ((⟨"u1", some "user", none⟩ : SessionData).role = some "admin" →
      login_required (some "admin") (some ⟨"u1", some "user", none⟩) (0 : Nat)
        = .allowed 0) ∧
    login_required none (some ⟨"u1", some "user", none⟩) (0 : Nat) = .allowed 0 ∧
    login_required (some "user")
      (some { (⟨"u1", some "user", none⟩ : SessionData) with role := some "admin" })
      (0 : Nat) = .forbidden) :=
  ⟨by decide, C3_gate_decisions (some "admin") ⟨"u1", some "user", none⟩ "admin" 0 (by decide)⟩

/-- The JSON body of `/sessionLogin`: an optional `idToken` field. -/
structure LoginBody where
  idToken : Option String
deriving DecidableEq, Repr

/-- Outcome of `session_login`: the three 400-errors, the exception branch
(verification failure), or success. -/
inductive LoginResult where
  | errNoData
  | errNoToken
  | errUserNotFound
  | errAuth
  | success
deriving DecidableEq, Repr

/-- `session_login` (app.py lines 125–156): reject missing body or falsy
token; verify the token (modelled by the `verify` oracle of the identity
service, `none` = verification exception); look up the user document, failing
with "User not found" if absent; otherwise set the session to the verified
uid, the document's role (default "user") and email.  Returns the result and
the session state after the call. -/
def session_login (verify : String → Option String) (users : UserStore)
    (data : Option LoginBody) (sess : Option SessionData) :
    LoginResult × Option SessionData :=
  match data with
  | none => (.errNoData, sess)
  | some d =>
      match d.idToken with
      | none => (.errNoToken, sess)
      | some tok =>
          if tok = "" then (.errNoToken, sess)
          else
            match verify tok with
            | none => (.errAuth, sess)
            | some uid =>
                match users uid with
                | none => (.errUserNotFound, sess)
                | some udoc =>
                    (.success, some ⟨uid, some (udoc.role.getD "user"), udoc.email⟩)

/-- C4: on a successfully verified identity assertion, login fails with the
"User not found" error and leaves the session unchanged (no implicit account
creation) when no User record exists for the verified id; when a User record
exists it succeeds and the session becomes {verified id, role from the record
defaulting to "user", email from the record}. -/
theorem C4_login_verified_cases (verify : String → Option String)
    (users : UserStore) (sess : Option SessionData) (d : LoginBody)
    (tok uid : String) (htok : d.idToken = some tok) (hne : tok ≠ "")
    (hver : verify tok = some uid) :
    (users uid = none →
      session_login verify users (some d) sess = (.errUserNotFound, sess)) ∧
    (∀ udoc, users uid = some udoc →
      session_login verify users (some d) sess
        = (.success, some ⟨uid, some (udoc.role.getD "user"), udoc.email⟩)) := by
  constructor
  · intro habs
    rw [session_login]
    rw [htok]
    simp only [if_neg hne, hver, habs]
  · intro udoc hudoc
    rw [session_login]
    rw [htok]
    simp only [if_neg hne, hver, hudoc]

/-- Witness for C4 at concrete inputs: a store without the user (login is
refused, session untouched) and a store with the user (session established). -/
theorem C4_login_verified_cases_witness :
    (((fun _ => none : UserStore) "u1" = none →
      session_login (fun t => if t = "tok" then some "u1" else none)
        (fun _ => none) (some ⟨some "tok"⟩) none = (.errUserNotFound, none)) ∧
    (∀ udoc, (fun _ => none : UserStore) "u1" = some udoc →
      session_login (fun t => if t = "tok" then some "u1" else none)
        (fun _ => none) (some ⟨some "tok"⟩) none
        = (.success, some ⟨"u1", some (udoc.role.getD "user"), udoc.email⟩))) ∧
    (((fun u => if u = "u1" then some ⟨some "e@x", some "admin", []⟩ else none :
        UserStore) "u1" = none →
      session_login (fun t => if t = "tok" then some "u1" else none)
        (fun u => if u = "u1" then some ⟨some "e@x", some "admin", []⟩ else none)
        (some ⟨some "tok"⟩) none = (.errUserNotFound, none)) ∧
    (∀ udoc, (fun u => if u = "u1" then some ⟨some "e@x", some "admin", []⟩ else none :
        UserStore) "u1" = some udoc →
      session_login (fun t => if t = "tok" then some "u1" else none)
        (fun u => if u = "u1" then some ⟨some "e@x", some "admin", []⟩ else none)
        (some ⟨some "tok"⟩) none
        = (.success, some ⟨"u1", some (udoc.role.getD "user"), udoc.email⟩))) :=
  ⟨C4_login_verified_cases (fun t => if t = "tok" then some "u1" else none)
      (fun _ => none) none ⟨some "tok"⟩ "tok" "u1" rfl (by decide) (by decide),
   C4_login_verified_cases (fun t => if t = "tok" then some "u1" else none)
      (fun u => if u = "u1" then some ⟨some "e@x", some "admin", []⟩ else none)
      none ⟨some "tok"⟩ "tok" "u1" rfl (by decide) (by decide)⟩

/-! ## View-tracking callers (`/api/user/track-view`, content-read handlers) -/

/-- The JSON body of `/api/user/track-view`.  The handler checks presence of
`type`, `id`, `title`, `url`; `description`/`image` default to `""`.  A
`viewedAt` member models a client attempting to supply the timestamp — the
handler never reads it. -/
structure TrackViewRequest where
  type : Option Value
  id : Option Value
  title : Option Value
  description : Option Value
  image : Option Value
  url : Option Value
  viewedAt : Option Value
deriving DecidableEq, Repr

/-- Outcome of `/api/user/track-view`. -/
inductive TrackResp where
  | errNoData
  | errMissingField (f : String)
  | success
  | failure
deriving DecidableEq, Repr

lemma track_user_view_internal_fst (store : UserStore) (v : View) (uid : String) :
    (track_user_view_internal store v uid).1 = true := by
  unfold track_user_view_internal
  cases store uid <;> rfl

/-- `track_user_view` (app.py lines 236–275): validate presence of the
required fields, build the view record with `viewedAt` set to the store's
transaction timestamp (`firestore.SERVER_TIMESTAMP`), and run the tracker. -/
def track_user_view (req : Option TrackViewRequest) (uid : String)
    (store : UserStore) : TrackResp × UserStore :=
  match req with
  | none => (.errNoData, store)
  | some d =>
      match d.type with
      | none => (.errMissingField "type", store)
      | some t =>
          match d.id with
          | none => (.errMissingField "id", store)
          | some i =>
              match d.title with
              | none => (.errMissingField "title", store)
              | some ti =>
                  match d.url with
                  | none => (.errMissingField "url", store)
                  | some u =>
                      let view_data : View :=
                        ⟨t, i, ti, d.description.getD (.s ""),
                         d.image.getD (.s ""), u, some .ts⟩
                      let r := track_user_view_internal store view_data uid
                      (if r.1 then .success else .failure, r.2)

/-- The `view_data` dict built by `get_single_blog` (app.py lines 430–437):
note it has no `viewedAt` key. -/
def blogViewData (blog_id : String) (blog_data : Doc) : View :=
  ⟨.s "blog", .s blog_id, (blog_data "title").getD (.s "Untitled Blog"),
   (blog_data "shortDesc").getD (.s ""), (blog_data "image").getD (.s ""),
   .s ("/blog/" ++ blog_id), none⟩

/-- The `view_data` dict built by `get_single_recipe` (app.py lines 594–601):
no `viewedAt` key either. -/
def recipeViewData (recipe_id : String) (recipe_data : Doc) : View :=
  ⟨.s "recipe", .s recipe_id, (recipe_data "title").getD (.s "Untitled Recipe"),
   (recipe_data "shortDesc").getD (.s ""), (recipe_data "image").getD (.s ""),
   .s ("/recipe/" ++ recipe_id), none⟩

/-- Response of the single-content read handlers (serialization of the
returned document omitted; the tracked store is returned alongside). -/
inductive ContentResp where
  | notFound
  | ok (d : Doc)

/-- `get_single_blog` (app.py lines 413–449): 404 if absent; if a session
exists, record the derived view as a side effect; return the blog. -/
def get_single_blog (blog_id : String) (blogs : List (String × Doc))
    (sess : Option SessionData) (users : UserStore) : ContentResp × UserStore :=
  match blogs.lookup blog_id with
  | none => (.notFound, users)
  | some bd =>
      match sess with
      | some s =>
          (.ok bd, (track_user_view_internal users (blogViewData blog_id bd) s.uid).2)
      | none => (.ok bd, users)

/-- `get_single_recipe` (app.py lines 577–613): same pattern as
`get_single_blog`. -/
def get_single_recipe (recipe_id : String) (recipes : List (String × Doc))
    (sess : Option SessionData) (users : UserStore) : ContentResp × UserStore :=
  match recipes.lookup recipe_id with
  | none => (.notFound, users)
  | some rd =>
      match sess with
      | some s =>
          (.ok rd, (track_user_view_internal users (recipeViewData recipe_id rd) s.uid).2)
      | none => (.ok rd, users)

/-- C2 counterexample: a view recorded through the content-read handler
`get_single_blog` is stored with no `viewedAt` at all — so it is not true
that every recorded view's `viewedAt` is assigned (by the tracker, from the
transaction timestamp) at record time. -/
theorem C2_counterexample_viewedAt_absent :
    viewsOf ((get_single_blog "b1"
        [("b1", fun f => if f = "title" then some (Value.s "T") else none)]
        (some ⟨"u1", some "user", none⟩) (fun _ => none)).2) "u1"
      = [⟨.s "blog", .s "b1", .s "T", .s "", .s "", .s "/blog/b1", none⟩] ∧
    (⟨.s "blog", .s "b1", .s "T", .s "", .s "", .s "/blog/b1", none⟩ : View).viewedAt
      ≠ some .ts := by
  constructor
  · rfl
  · decide

/-- C2 amended: `viewedAt` is never client-supplied, but its assignment is
split by caller: the `/api/user/track-view` route handler (not the tracker)
sets it to the store's transaction timestamp, ignoring any client-supplied
`viewedAt`; the content-read handlers build view records with no `viewedAt`
field; and the tracker stores each record exactly as its caller built it. -/
theorem C2_amended_viewedAt_provenance
    (d : TrackViewRequest) (t i ti u : Value) (uid : String) (store : UserStore)
    (ht : d.type = some t) (hi : d.id = some i) (hti : d.title = some ti)
    (hu : d.url = some u) (v : View) (blog_id recipe_id : String) (bd rd : Doc) :
    track_user_view (some d) uid store
      = (.success, (track_user_view_internal store
          ⟨t, i, ti, d.description.getD (.s ""), d.image.getD (.s ""), u,
            some .ts⟩ uid).2) ∧
    (blogViewData blog_id bd).viewedAt = none ∧
    (recipeViewData recipe_id rd).viewedAt = none ∧
    (viewsOf (track_user_view_internal store v uid).2 uid).head? = some v := by
  refine ⟨?_, rfl, rfl, ?_⟩
  · rw [track_user_view, ht, hi, hti, hu]
    simp only [track_user_view_internal_fst, if_true]
  · rw [viewsOf_track, trackViewList_eq, show (50 : Nat) = 49 + 1 from rfl,
      List.take_succ_cons]
    rfl

/-- Witness for C2's amended theorem at a concrete input (the request even
carries a client `viewedAt`, which is ignored). -/
theorem C2_amended_viewedAt_provenance_witness :
    track_user_view (some ⟨some (.s "blog"), some (.s "a"), some (.s "T"), none,
        none, some (.s "/blog/a"), some (.s "1999-01-01")⟩) "u1" (fun _ => none)
      = (.success, (track_user_view_internal (fun _ => none)
          ⟨.s "blog", .s "a", .s "T", (none : Option Value).getD (.s ""),
            (none : Option Value).getD (.s ""), .s "/blog/a", some .ts⟩ "u1").2) ∧
    (blogViewData "b9" (fun _ => none)).viewedAt = none ∧
    (recipeViewData "r9" (fun _ => none)).viewedAt = none ∧
    (viewsOf (track_user_view_internal (fun _ => none) (mkView "blog" "z" "Z") "u1").2
      "u1").head? = some (mkView "blog" "z" "Z") :=
  C2_amended_viewedAt_provenance
    ⟨some (.s "blog"), some (.s "a"), some (.s "T"), none, none,
      some (.s "/blog/a"), some (.s "1999-01-01")⟩
    (.s "blog") (.s "a") (.s "T") (.s "/blog/a") "u1" (fun _ => none)
    rfl rfl rfl rfl (mkView "blog" "z" "Z") "b9" "r9" (fun _ => none) (fun _ => none)

/-! ## Blog management (`get_blogs`, `get_admin_blogs`, `create_blog`) -/

/-- The required fields of a content create request (blogs and recipes,
app.py lines 481 and 645). -/
def required_fields : List String := ["title", "shortDesc", "content", "status"]

/-- `field not in data or not data[field]`. -/
def missingOrFalsy (data : Fields) (f : String) : Bool :=
  match data.lookup f with
  | none => true
  | some v => !v.truthy

/-- The first required field reported missing by the validation loop. -/
def firstMissingField (data : Fields) : Option String :=
  required_fields.find? (missingOrFalsy data)

/-- The sort key of the blog/recipe listings:
`x.get("createdAt", "")` compared as a string (non-string values, which make
the Python sort a best-effort comparison, key as `""` here). -/
def createdAtKey (b : String × Doc) : String :=
  match b.2 "createdAt" with
  | some (.s str) => str
  | _ => ""

/-- `get_blogs` (app.py lines 392–411): the `status == "published"` query
followed by the descending-`createdAt` sort.  The JSON cleaning step, which
only re-renders values, is omitted; documents are paired with their ids. -/
def get_blogs (blogs : List (String × Doc)) : List (String × Doc) :=
  (blogs.filter (fun b => b.2 "status" = some (.s "published"))).mergeSort
    (fun x y => createdAtKey y ≤ createdAtKey x)

/-- `get_admin_blogs` (app.py lines 451–470): all blog documents (drafts
included), sorted the same way. -/
def get_admin_blogs (blogs : List (String × Doc)) : List (String × Doc) :=
  blogs.mergeSort (fun x y => createdAtKey y ≤ createdAtKey x)

/-- The `blog_data` dict assembled by `create_blog` (app.py lines 486–497):
validated fields verbatim, `date`/`image` with defaults, author/authorId from
the session, server timestamps for createdAt/updatedAt.  `now_date` stands
for `datetime.datetime.now().strftime("%Y-%m-%d")`. -/
def blog_data (sess : SessionData) (data : Fields) (now_date : String) : Doc :=
  fun f =>
    if f = "title" then data.lookup "title"
    else if f = "shortDesc" then data.lookup "shortDesc"
    else if f = "content" then data.lookup "content"
    else if f = "status" then data.lookup "status"
    else if f = "date" then some ((data.lookup "date").getD (.s now_date))
    else if f = "image" then some ((data.lookup "image").getD
      (.s "https://placehold.co/600x400/3d3d3d/ffffff?text=Blog+Image"))
    else if f = "author" then some (.s (sess.email.getD "Admin"))
    else if f = "authorId" then some (.s sess.uid)
    else if f = "createdAt" then some .ts
    else if f = "updatedAt" then some .ts
    else none

/-- Outcome of a create handler. -/
inductive CreateResp where
  | errNoData
  | errMissingField (f : String)
  | created (d : Doc)

/-- `create_blog` (app.py lines 472–510): validate the required fields
(present and truthy), then write the assembled document under a fresh
store-generated id (`new_id`). -/
def create_blog (sess : SessionData) (data : Option Fields) (now_date : String)
    (new_id : String) (blogs : List (String × Doc)) :
    CreateResp × List (String × Doc) :=
  match data with
  | none => (.errNoData, blogs)
  | some d =>
      match firstMissingField d with
      | some f => (.errMissingField f, blogs)
      | none =>
          let bd := blog_data sess d now_date
          (.created bd, (new_id, bd) :: blogs)

/-- C6: a blog-create request in which some required field (title, shortDesc,
content, status) is absent or empty fails with a validation error and
performs no store write: the blogs collection is returned unchanged. -/
theorem C6_create_blog_validation_atomic (sess : SessionData) (d : Fields)
    (now_date new_id : String) (blogs : List (String × Doc)) (f : String)
    (hf : f ∈ required_fields) (hmiss : missingOrFalsy d f = true) :
    ∃ f', create_blog sess (some d) now_date new_id blogs
      = (.errMissingField f', blogs) := by
  have hsome : (firstMissingField d).isSome :=
    List.find?_isSome.mpr ⟨f, hf, hmiss⟩
  rcases Option.isSome_iff_exists.mp hsome with ⟨f', hf'⟩
  refine ⟨f', ?_⟩
  rw [create_blog, hf']

/-- Witness for C6: the request misses `content`. -/
theorem C6_create_blog_validation_atomic_witness :
    "content" ∈ required_fields ∧
    missingOrFalsy [("title", .s "T"), ("shortDesc", .s "S"), ("status", .s "draft")]
      "content" = true ∧
    ∃ f', create_blog ⟨"a1", some "admin", some "adm@x"⟩
      (some [("title", .s "T"), ("shortDesc", .s "S"), ("status", .s "draft")])
      "2024-01-01" "b1" [] = (.errMissingField f', []) :=
  ⟨by decide, by decide,
    C6_create_blog_validation_atomic ⟨"a1", some "admin", some "adm@x"⟩
      [("title", .s "T"), ("shortDesc", .s "S"), ("status", .s "draft")]
      "2024-01-01" "b1" [] "content" (by decide) (by decide)⟩

/-- C9: `status` is never validated against {"draft", "published"}: a create
with the non-empty status "bogus" succeeds and stores the item; the stored
status is outside the enum; the item appears in the admin listing but not in
the public listing, which filters on equality with "published". -/
theorem C9_status_not_validated :
    (create_blog ⟨"a1", some "admin", some "adm@x"⟩
        (some [("title", .s "T"), ("shortDesc", .s "S"), ("content", .s "C"),
          ("status", .s "bogus")]) "2024-01-01" "b1" []).2
      = [("b1", blog_data ⟨"a1", some "admin", some "adm@x"⟩
          [("title", .s "T"), ("shortDesc", .s "S"), ("content", .s "C"),
            ("status", .s "bogus")] "2024-01-01")] ∧
    (∃ d, (create_blog ⟨"a1", some "admin", some "adm@x"⟩
        (some [("title", .s "T"), ("shortDesc", .s "S"), ("content", .s "C"),
          ("status", .s "bogus")]) "2024-01-01" "b1" []).1 = .created d) ∧
    blog_data ⟨"a1", some "admin", some "adm@x"⟩
        [("title", .s "T"), ("shortDesc", .s "S"), ("content", .s "C"),
          ("status", .s "bogus")] "2024-01-01" "status" = some (.s "bogus") ∧
    Value.s "bogus" ≠ Value.s "draft" ∧
    Value.s "bogus" ≠ Value.s "published" ∧
    get_blogs [("b1", blog_data ⟨"a1", some "admin", some "adm@x"⟩
        [("title", .s "T"), ("shortDesc", .s "S"), ("content", .s "C"),
          ("status", .s "bogus")] "2024-01-01")] = [] ∧
    get_admin_blogs [("b1", blog_data ⟨"a1", some "admin", some "adm@x"⟩
        [("title", .s "T"), ("shortDesc", .s "S"), ("content", .s "C"),
          ("status", .s "bogus")] "2024-01-01")]
      = [("b1", blog_data ⟨"a1", some "admin", some "adm@x"⟩
          [("title", .s "T"), ("shortDesc", .s "S"), ("content", .s "C"),
            ("status", .s "bogus")] "2024-01-01")] := by
  refine ⟨rfl, ⟨_, rfl⟩, by decide, by decide, by decide, ?_, ?_⟩
  · rw [get_blogs,
      show List.filter (fun b => b.2 "status" = some (.s "published"))
          [("b1", blog_data ⟨"a1", some "admin", some "adm@x"⟩
            [("title", .s "T"), ("shortDesc", .s "S"), ("content", .s "C"),
              ("status", .s "bogus")] "2024-01-01")] = [] from rfl]
    exact List.mergeSort_nil
  · rw [get_admin_blogs]
    exact List.mergeSort_singleton _

/-! ## Update handlers (`update_blog`, `update_recipe`) -/

/-- The standard fields copied by both update handlers (app.py lines 526 and
717). -/
def standard_update_fields : List String :=
  ["title", "shortDesc", "content", "status", "date", "image"]

/-- The extra plain recipe fields (app.py line 744). -/
def other_recipe_fields : List String := ["prepTime", "cookTime", "servings", "category"]

/-- `[line.strip() for line in s.split('\n') if line.strip()]`. -/
def process_lines (s : String) : List String :=
  ((s.splitOn "\n").map String.trim).filter (fun line => line ≠ "")

/-- `[tag.strip() for tag in s.split(',') if tag.strip()]`. -/
def process_tags (s : String) : List String :=
  ((s.splitOn ",").map String.trim).filter (fun tag => tag ≠ "")

/-- The string-or-sequence normalization for ingredients/instructions:
newline-split a string, pass anything else through. -/
def normalizeLines : Value → Value
  | .s str => .arr (process_lines str)
  | v => v

/-- Comma-split normalization for tags. -/
def normalizeTags : Value → Value
  | .s str => .arr (process_tags str)
  | v => v

/-- The `update_data` dict of `update_blog` (app.py lines 525–528): a fresh
`updatedAt` plus those of the six standard fields present in the request. -/
def blog_update_data (data : Fields) : Doc := fun f =>
  if f = "updatedAt" then some .ts
  else if f ∈ standard_update_fields then data.lookup f
  else none

/-- The `update_data` dict of `update_recipe` (app.py lines 714–746): the
blog fields plus normalized ingredients/instructions/tags and the other
recipe fields. -/
def recipe_update_data (data : Fields) : Doc := fun f =>
  if f = "updatedAt" then some .ts
  else if f ∈ standard_update_fields then data.lookup f
  else if f = "ingredients" then (data.lookup "ingredients").map normalizeLines
  else if f = "instructions" then (data.lookup "instructions").map normalizeLines
  else if f = "tags" then (data.lookup "tags").map normalizeTags
  else if f ∈ other_recipe_fields then data.lookup f
  else none

/-- Firestore `document.update(update_data)`: fields of `upd` overwrite,
everything else is kept. -/
def applyUpdate (d : Doc) (upd : Doc) : Doc := fun f =>
  match upd f with
  | some v => some v
  | none => d f

/-- Outcome of an update handler. -/
inductive UpdateResp where
  | errNoData
  | notFound
  | success
deriving DecidableEq, Repr

/-- Replace the document stored under `id` (the effect of
`doc_ref.update(...)` on the collection). -/
def storeUpdate (l : List (String × Doc)) (id : String) (new : Doc) :
    List (String × Doc) :=
  l.map (fun p => if p.1 = id then (p.1, new) else p)

/-- `update_blog` (app.py lines 512–536).  `if not data:` rejects both a
missing body and an empty JSON object with 400 "No data provided", before any
store access. -/
def update_blog (blog_id : String) (data : Option Fields)
    (blogs : List (String × Doc)) : UpdateResp × List (String × Doc) :=
  match data with
  | none => (.errNoData, blogs)
  | some d =>
      if d = [] then (.errNoData, blogs)
      else
        match blogs.lookup blog_id with
        | none => (.notFound, blogs)
        | some doc =>
            (.success, storeUpdate blogs blog_id (applyUpdate doc (blog_update_data d)))

/-- `update_recipe` (app.py lines 700–754), with the same
missing-or-empty-body rejection as `update_blog`. -/
def update_recipe (recipe_id : String) (data : Option Fields)
    (recipes : List (String × Doc)) : UpdateResp × List (String × Doc) :=
  match data with
  | none => (.errNoData, recipes)
  | some d =>
      if d = [] then (.errNoData, recipes)
      else
        match recipes.lookup recipe_id with
        | none => (.notFound, recipes)
        | some doc =>
            (.success, storeUpdate recipes recipe_id (applyUpdate doc (recipe_update_data d)))

lemma lookup_storeUpdate {l : List (String × Doc)} {id : String} {b : Doc}
    (new : Doc) (h : l.lookup id = some b) :
    (storeUpdate l id new).lookup id = some new := by
  induction l with
  | nil => simp at h
  | cons p l ih =>
      rcases p with ⟨k, v⟩
      by_cases hk : id = k
      · subst hk
        have h1 : storeUpdate ((id, v) :: l) id new
            = (id, new) :: storeUpdate l id new := by
          rw [storeUpdate, List.map_cons, if_pos (show (id, v).1 = id from rfl)]
          rfl
        rw [h1, List.lookup_cons_self]
      · have hbeq : (id == k) = false := beq_false_of_ne hk
        have h2 : storeUpdate ((k, v) :: l) id new
            = (k, v) :: storeUpdate l id new := by
          rw [storeUpdate, List.map_cons, if_neg (show ¬ (k, v).1 = id from
            fun he => hk he.symm)]
          rfl
        rw [List.lookup_cons, hbeq] at h
        rw [h2, List.lookup_cons, hbeq]
        exact ih h

/-- C8 counterexample: the blog-update handler ignores a supplied field that
is outside its whitelist — updating an existing blog with
`{"author": "B"}` leaves the stored `author` at its old value `"A"`, so it is
not true that every supplied field is merged. -/
theorem C8_counterexample_supplied_field_ignored :
    ((update_blog "b1" (some [("author", Value.s "B")])
        [("b1", fun f => if f = "author" then some (Value.s "A") else none)]).2.lookup
      "b1").map (fun d => d "author") = some (some (Value.s "A")) ∧
    some (some (Value.s "A")) ≠ some (some (Value.s "B")) := by
  exact ⟨rfl, by decide⟩

/-- Spec-side description of the amended blog merge, stated from the amended
claim's words (to be compared with the handler's stored result): `updatedAt`
is refreshed; every supplied field among the handler's six standard fields is
applied; any other field — not supplied, or supplied but outside the list —
is unchanged. -/
def BlogUpdateSpec (data : Fields) (old new : Doc) : Prop :=
  new "updatedAt" = some .ts ∧
  (∀ f ∈ standard_update_fields, ∀ v, data.lookup f = some v → new f = some v) ∧
  (∀ f, f ≠ "updatedAt" → (data.lookup f = none ∨ f ∉ standard_update_fields) →
    new f = old f)

/-- Spec-side description of the amended recipe merge: as for blogs, plus the
plain recipe fields, with the string-or-sequence normalization applied to
supplied ingredients/instructions/tags. -/
def RecipeUpdateSpec (data : Fields) (old new : Doc) : Prop :=
  new "updatedAt" = some .ts ∧
  (∀ f ∈ standard_update_fields, ∀ v, data.lookup f = some v → new f = some v) ∧
  (∀ f ∈ other_recipe_fields, ∀ v, data.lookup f = some v → new f = some v) ∧
  (∀ v, data.lookup "ingredients" = some v → new "ingredients" = some (normalizeLines v)) ∧
  (∀ v, data.lookup "instructions" = some v → new "instructions" = some (normalizeLines v)) ∧
  (∀ v, data.lookup "tags" = some v → new "tags" = some (normalizeTags v)) ∧
  (∀ f, f ≠ "updatedAt" → (data.lookup f = none ∨
      (f ∉ standard_update_fields ∧ f ∉ other_recipe_fields ∧
        f ∉ (["ingredients", "instructions", "tags"] : List String))) →
    new f = old f)

lemma blogUpdateSpec_holds (d : Fields) (old : Doc) :
    BlogUpdateSpec d old (applyUpdate old (blog_update_data d)) := by
  refine ⟨?_, ?_, ?_⟩
  · simp [applyUpdate, blog_update_data]
  · intro f hf v hv
    fin_cases hf <;>
      simp [applyUpdate, blog_update_data, standard_update_fields, hv]
  · intro f hne hcond
    simp only [applyUpdate, blog_update_data]
    rcases hcond with hnone | hnotin
    · by_cases hmem : f ∈ standard_update_fields
      · simp [hne, hmem, hnone]
      · simp [hne, hmem]
    · simp [hne, hnotin]

lemma recipeUpdateSpec_holds (d : Fields) (old : Doc) :
    RecipeUpdateSpec d old (applyUpdate old (recipe_update_data d)) := by
  refine ⟨?_, ?_, ?_, ?_, ?_, ?_, ?_⟩
  · simp [applyUpdate, recipe_update_data]
  · intro f hf v hv
    fin_cases hf <;>
      simp [applyUpdate, recipe_update_data, standard_update_fields, hv]
  · intro f hf v hv
    fin_cases hf <;>
      simp [applyUpdate, recipe_update_data, standard_update_fields,
        other_recipe_fields, hv]
  · intro v hv
    simp [applyUpdate, recipe_update_data, standard_update_fields, hv]
  · intro v hv
    simp [applyUpdate, recipe_update_data, standard_update_fields, hv]
  · intro v hv
    simp [applyUpdate, recipe_update_data, standard_update_fields, hv]
  · intro f hne hcond
    simp only [applyUpdate, recipe_update_data]
    rcases hcond with hnone | ⟨hns, hno, hnl⟩
    · split_ifs with h₁ h₂ h₃ h₄ h₅ h₆
      · exact absurd h₁ hne
      · simp [hnone]
      · subst h₃; simp [hnone]
      · subst h₄; simp [hnone]
      · subst h₅; simp [hnone]
      · simp [hnone]
      · rfl
    · split_ifs with h₁ h₂ h₃ h₄
      · exact absurd h₁ hne
      · exact absurd (by rw [h₂]; decide) hnl
      · exact absurd (by rw [h₃]; decide) hnl
      · exact absurd (by rw [h₄]; decide) hnl
      · rfl

/-- C8 amended: a missing or empty update request is rejected with "No data
provided" and performs no write; a non-empty update of an existing
blog/recipe merges exactly the supplied fields *that lie in the handler's
updatable-field list* plus a refreshed `updatedAt` into the stored document;
supplied fields outside that list are ignored (left unchanged), fields not
supplied are unchanged, and for recipes supplied
ingredients/instructions/tags are normalized (newline-split and
blank-filtered, or comma-split and trimmed) when they arrive as strings. -/
theorem C8_amended_update_merge (id : String) (d : Fields)
    (blogs recipes : List (String × Doc)) (bdoc rdoc : Doc) (hd : d ≠ [])
    (hb : blogs.lookup id = some bdoc) (hr : recipes.lookup id = some rdoc) :
    update_blog id (some []) blogs = (.errNoData, blogs) ∧
    update_recipe id (some []) recipes = (.errNoData, recipes) ∧
    (update_blog id (some d) blogs).1 = .success ∧
    (update_blog id (some d) blogs).2.lookup id
      = some (applyUpdate bdoc (blog_update_data d)) ∧
    BlogUpdateSpec d bdoc (applyUpdate bdoc (blog_update_data d)) ∧
    (update_recipe id (some d) recipes).1 = .success ∧
    (update_recipe id (some d) recipes).2.lookup id
      = some (applyUpdate rdoc (recipe_update_data d)) ∧
    RecipeUpdateSpec d rdoc (applyUpdate rdoc (recipe_update_data d)) := by
  refine ⟨?_, ?_, ?_, ?_, blogUpdateSpec_holds d bdoc, ?_, ?_,
    recipeUpdateSpec_holds d rdoc⟩
  · rw [update_blog, if_pos rfl]
  · rw [update_recipe, if_pos rfl]
  · rw [update_blog, if_neg hd, hb]
  · rw [update_blog, if_neg hd, hb]
    exact lookup_storeUpdate _ hb
  · rw [update_recipe, if_neg hd, hr]
  · rw [update_recipe, if_neg hd, hr]
    exact lookup_storeUpdate _ hr

/-- Witness for C8's amended theorem at a concrete input (a supplied
whitelisted field, a supplied ignored field, string-valued ingredients and
tags; the request is non-empty). -/
theorem C8_amended_update_merge_witness :
    ([("title", .s "New"), ("author", .s "B"),
        ("ingredients", .s "2 eggs\n1 cup flour\n\n"), ("tags", .s "a, b")] :
      Fields) ≠ [] ∧
    (update_blog "x1" (some [])
      [("x1", fun f => if f = "title" then some (Value.s "Old")
          else if f = "author" then some (Value.s "A") else none)]
      = (.errNoData,
          [("x1", fun f => if f = "title" then some (Value.s "Old")
            else if f = "author" then some (Value.s "A") else none)]) ∧
    update_recipe "x1" (some [])
      [("x1", fun f => if f = "title" then some (Value.s "OldR") else none)]
      = (.errNoData,
          [("x1", fun f => if f = "title" then some (Value.s "OldR") else none)]) ∧
    (update_blog "x1" (some [("title", .s "New"), ("author", .s "B"),
        ("ingredients", .s "2 eggs\n1 cup flour\n\n"), ("tags", .s "a, b")])
      [("x1", fun f => if f = "title" then some (Value.s "Old")
          else if f = "author" then some (Value.s "A") else none)]).1 = .success ∧
    (update_blog "x1" (some [("title", .s "New"), ("author", .s "B"),
        ("ingredients", .s "2 eggs\n1 cup flour\n\n"), ("tags", .s "a, b")])
      [("x1", fun f => if f = "title" then some (Value.s "Old")
          else if f = "author" then some (Value.s "A") else none)]).2.lookup "x1"
      = some (applyUpdate
          (fun f => if f = "title" then some (Value.s "Old")
            else if f = "author" then some (Value.s "A") else none)
          (blog_update_data [("title", .s "New"), ("author", .s "B"),
            ("ingredients", .s "2 eggs\n1 cup flour\n\n"), ("tags", .s "a, b")])) ∧
    BlogUpdateSpec [("title", .s "New"), ("author", .s "B"),
        ("ingredients", .s "2 eggs\n1 cup flour\n\n"), ("tags", .s "a, b")]
      (fun f => if f = "title" then some (Value.s "Old")
        else if f = "author" then some (Value.s "A") else none)
      (applyUpdate
        (fun f => if f = "title" then some (Value.s "Old")
          else if f = "author" then some (Value.s "A") else none)
        (blog_update_data [("title", .s "New"), ("author", .s "B"),
          ("ingredients", .s "2 eggs\n1 cup flour\n\n"), ("tags", .s "a, b")])) ∧
    (update_recipe "x1" (some [("title", .s "New"), ("author", .s "B"),
        ("ingredients", .s "2 eggs\n1 cup flour\n\n"), ("tags", .s "a, b")])
      [("x1", fun f => if f = "title" then some (Value.s "OldR") else none)]).1
      = .success ∧
    (update_recipe "x1" (some [("title", .s "New"), ("author", .s "B"),
        ("ingredients", .s "2 eggs\n1 cup flour\n\n"), ("tags", .s "a, b")])
      [("x1", fun f => if f = "title" then some (Value.s "OldR") else none)]).2.lookup
      "x1" = some (applyUpdate
          (fun f => if f = "title" then some (Value.s "OldR") else none)
          (recipe_update_data [("title", .s "New"), ("author", .s "B"),
            ("ingredients", .s "2 eggs\n1 cup flour\n\n"), ("tags", .s "a, b")])) ∧
    RecipeUpdateSpec [("title", .s "New"), ("author", .s "B"),
        ("ingredients", .s "2 eggs\n1 cup flour\n\n"), ("tags", .s "a, b")]
      (fun f => if f = "title" then some (Value.s "OldR") else none)
      (applyUpdate
        (fun f => if f = "title" then some (Value.s "OldR") else none)
        (recipe_update_data [("title", .s "New"), ("author", .s "B"),
          ("ingredients", .s "2 eggs\n1 cup flour\n\n"), ("tags", .s "a, b")]))) :=
  ⟨by decide,
    C8_amended_update_merge "x1"
      [("title", .s "New"), ("author", .s "B"),
        ("ingredients", .s "2 eggs\n1 cup flour\n\n"), ("tags", .s "a, b")]
      [("x1", fun f => if f = "title" then some (Value.s "Old")
          else if f = "author" then some (Value.s "A") else none)]
      [("x1", fun f => if f = "title" then some (Value.s "OldR") else none)]
      (fun f => if f = "title" then some (Value.s "Old")
        else if f = "author" then some (Value.s "A") else none)
      (fun f => if f = "title" then some (Value.s "OldR") else none)
      (by decide) rfl rfl⟩

/-! ## Groups (`join_group`) -/

/-- A document of a group's `members` subcollection (app.py lines 890–894),
keyed by the member's uid. -/
structure MemberDoc where
  userId : String
  userEmail : Option String
  joinedAt : Value
deriving DecidableEq, Repr

/-- The `groups` collection with its `members` subcollections: the ids of the
existing group documents, and the member documents keyed by
(group id, user id). -/
structure CommunityState where
  groups : List String
  members : List ((String × String) × MemberDoc)
deriving DecidableEq, Repr

/-- The member documents of one group (derived by enumeration, as the
member-count reads do). -/
def membersOf (st : CommunityState) (gid : String) :
    List ((String × String) × MemberDoc) :=
  st.members.filter (fun p => p.1.1 = gid)

/-- Outcome of `join_group`. -/
inductive JoinResp where
  | notFound
  | alreadyMember
  | success
deriving DecidableEq, Repr

/-- `join_group` (app.py lines 871–899): 404 if the group document is absent;
400 "Already a member" if the caller's member document exists; otherwise set
the member document keyed by the caller's uid. -/
def join_group (gid : String) (sess : SessionData) (st : CommunityState) :
    JoinResp × CommunityState :=
  if gid ∈ st.groups then
    match st.members.lookup (gid, sess.uid) with
    | some _ => (.alreadyMember, st)
    | none =>
        (.success,
          { st with members :=
              ((gid, sess.uid), ⟨sess.uid, sess.email, .ts⟩) :: st.members })
  else (.notFound, st)

/-- C7: `joinGroup` fails with NotFound on an absent group; fails with
AlreadyMember (state unchanged) when the caller's member document exists;
otherwise inserts exactly one member document keyed by the caller; and two
successive joins by the same user on the same existing group succeed then
fail with AlreadyMember, the second call leaving the state (hence the member
count) untouched. -/
theorem C7_join_group_cases (gid : String) (sess : SessionData)
    (st : CommunityState) :
    (gid ∉ st.groups → join_group gid sess st = (.notFound, st)) ∧
    (gid ∈ st.groups → (st.members.lookup (gid, sess.uid)).isSome →
      join_group gid sess st = (.alreadyMember, st)) ∧
    (gid ∈ st.groups → st.members.lookup (gid, sess.uid) = none →
      (join_group gid sess st).1 = .success ∧
      membersOf (join_group gid sess st).2 gid
        = ((gid, sess.uid), ⟨sess.uid, sess.email, .ts⟩) :: membersOf st gid ∧
      (join_group gid sess st).2.members.lookup (gid, sess.uid)
        = some ⟨sess.uid, sess.email, .ts⟩ ∧
      (join_group gid sess (join_group gid sess st).2)
        = (.alreadyMember, (join_group gid sess st).2)) := by
  refine ⟨?_, ?_, ?_⟩
  · intro habs
    rw [join_group, if_neg habs]
  · intro hmem hsome
    rcases Option.isSome_iff_exists.mp hsome with ⟨m, hm⟩
    rw [join_group, if_pos hmem, hm]
  · intro hmem hnone
    have hstep : join_group gid sess st
        = (.success,
            { st with members :=
                ((gid, sess.uid), ⟨sess.uid, sess.email, .ts⟩) :: st.members }) := by
      rw [join_group, if_pos hmem, hnone]
    refine ⟨by rw [hstep], ?_, ?_, ?_⟩
    · rw [hstep, membersOf, membersOf]
      rw [List.filter_cons_of_pos (by simp)]
    · rw [hstep]
      exact List.lookup_cons_self
    · rw [hstep]
      rw [join_group, if_pos hmem, List.lookup_cons_self]

/-- Witness for C7 at a concrete input: a one-group store, a fresh user. -/
theorem C7_join_group_cases_witness :
    (("g1" : String) ∉ (⟨["g1"], []⟩ : CommunityState).groups →
      join_group "g1" ⟨"u1", some "user", some "e@x"⟩ ⟨["g1"], []⟩
        = (.notFound, ⟨["g1"], []⟩)) ∧
    (("g1" : String) ∈ (⟨["g1"], []⟩ : CommunityState).groups →
      ((⟨["g1"], []⟩ : CommunityState).members.lookup ("g1", "u1")).isSome →
      join_group "g1" ⟨"u1", some "user", some "e@x"⟩ ⟨["g1"], []⟩
        = (.alreadyMember, ⟨["g1"], []⟩)) ∧
    (("g1" : String) ∈ (⟨["g1"], []⟩ : CommunityState).groups →
      (⟨["g1"], []⟩ : CommunityState).members.lookup ("g1", "u1") = none →
      (join_group "g1" ⟨"u1", some "user", some "e@x"⟩ ⟨["g1"], []⟩).1 = .success ∧
      membersOf (join_group "g1" ⟨"u1", some "user", some "e@x"⟩ ⟨["g1"], []⟩).2 "g1"
        = (("g1", "u1"), ⟨"u1", some "e@x", .ts⟩) :: membersOf ⟨["g1"], []⟩ "g1" ∧
      (join_group "g1" ⟨"u1", some "user", some "e@x"⟩
          ⟨["g1"], []⟩).2.members.lookup ("g1", "u1")
        = some ⟨"u1", some "e@x", .ts⟩ ∧
      (join_group "g1" ⟨"u1", some "user", some "e@x"⟩
          (join_group "g1" ⟨"u1", some "user", some "e@x"⟩ ⟨["g1"], []⟩).2)
        = (.alreadyMember,
            (join_group "g1" ⟨"u1", some "user", some "e@x"⟩ ⟨["g1"], []⟩).2)) :=
  C7_join_group_cases "g1" ⟨"u1", some "user", some "e@x"⟩ ⟨["g1"], []⟩

/-! ## Recent-views list/remove endpoints -/

/-- Outcome of `/api/user/recent-views`: the success payload (the stored list;
on the modelled value domain the per-view datetime-to-string cleaning loop is
the identity), or the unreachable exception envelope. -/
inductive ListViewsResp where
  | ok (recent_views : List View)
  | err
deriving DecidableEq, Repr

/-- `get_user_recent_views` (app.py lines 277–316): an absent user document
yields success with an empty list, not an error. -/
def get_user_recent_views (uid : String) (store : UserStore) : ListViewsResp :=
  match store uid with
  | none => .ok []
  | some d => .ok d.recent_views

/-- The JSON body of `/api/user/remove-recent-view`. -/
structure RemoveReq where
  viewId : Option Value
  viewType : Option Value
deriving DecidableEq, Repr

/-- Outcome of `remove_recent_view`. -/
inductive RemoveResp where
  | errNoData
  | errMissingParam
  | userNotFound
  | success
deriving DecidableEq, Repr

/-- `remove_recent_view` (app.py lines 319–361): validate the params
(`if not view_id or not view_type`), then 404 "User not found" if the user
document is absent; otherwise filter out the matching entry and persist. -/
def remove_recent_view (uid : String) (data : Option RemoveReq)
    (store : UserStore) : RemoveResp × UserStore :=
  match data with
  | none => (.errNoData, store)
  | some d =>
      match d.viewId, d.viewType with
      | some vid, some vty =>
          if !vid.truthy ∨ !vty.truthy then (.errMissingParam, store)
          else
            match store uid with
            | none => (.userNotFound, store)
            | some udoc =>
                let updated_views := udoc.recent_views.filter
                  (fun v => !(v.id = vid ∧ v.type = vty))
                (.success, fun u => if u = uid then
                    some { udoc with recent_views := updated_views }
                  else store u)
      | _, _ => (.errMissingParam, store)

/-- C10: the missing-User-document case is asymmetric at the public
interface: listing recent views for a user with no document succeeds with an
empty list, while removing a recent view (with well-formed params) for the
same user fails with the 404 "User not found" error, leaving the store
unchanged. -/
theorem C10_missing_user_asymmetry (uid : String) (store : UserStore)
    (vid vty : Value) (hv : vid.truthy = true) (ht : vty.truthy = true)
    (habs : store uid = none) :
    get_user_recent_views uid store = .ok [] ∧
    remove_recent_view uid (some ⟨some vid, some vty⟩) store
      = (.userNotFound, store) := by
  constructor
  · rw [get_user_recent_views, habs]
  · simp only [remove_recent_view]
    rw [if_neg (by simp [hv, ht])]
    rw [habs]

/-- Witness for C10 at a concrete input. -/
theorem C10_missing_user_asymmetry_witness :
    (Value.s "a").truthy = true ∧ (Value.s "blog").truthy = true ∧
    ((fun _ => none : UserStore) "u1" = none) ∧
    (get_user_recent_views "u1" (fun _ => none) = .ok [] ∧
    remove_recent_view "u1" (some ⟨some (.s "a"), some (.s "blog")⟩) (fun _ => none)
      = (.userNotFound, fun _ => none)) :=
  ⟨by decide, by decide, rfl,
    C10_missing_user_asymmetry "u1" (fun _ => none) (.s "a") (.s "blog")
      (by decide) (by decide) rfl⟩

end FitnessWeb
